import Mathlib

/-!
Verification development for the Etsy Help Center article auditor.

The definitions below are a shallow embedding of the repository's Python
sources (`src/auditor/content_analyzer.py`, `src/auditor/ui_verifier.py`,
`src/auditor/report.py`, `src/auditor/zendesk_client.py`):

* Python's dynamically typed JSON-like values are the `PyVal` inductive;
  Python exceptions raised by the embedded code paths are the `PyErr`
  inductive and fallible code returns `Except PyErr _`.
* Python `re` patterns used by the code are embedded as `Rx` values and run
  by a small backtracking matcher (`matchSfx`) that enumerates candidate
  suffixes in Python's priority order (alternation left first, greedy
  quantifiers longest first); `re.IGNORECASE` is the `ic` flag, which makes
  literals and character classes match case-insensitively (ASCII case
  folding, as in the inputs the code handles).
* `BeautifulSoup(...).get_text(separator=" ", strip=True)` and
  `find_all("a", href=True)` belong to an external parsing library; they are
  modelled over well-formed simple markup: `soupGetText` splits the raw
  string at tags and joins the stripped text segments, and the hyperlink
  scan takes the document's `a[href]` elements (in document order) as input.
* Python floats holding the verifier's confidence values are modelled as
  exact rationals (`ℚ`); the embedded code only adds and divides small
  decimal constants, and no claim depends on binary rounding.
-/

namespace EtsyAuditor

/-! ### Python dynamic values and exceptions -/

/-- A Python value as produced by `json.loads` plus `None`/`bool`/`int`/`str`
literals used by the embedded code. -/
inductive PyVal where
  | null : PyVal
  | bool : Bool → PyVal
  | int : Int → PyVal
  | str : String → PyVal
  | arr : List PyVal → PyVal
  | obj : List (String × PyVal) → PyVal
deriving Repr

/-- A Python exception escaping the embedded code. -/
inductive PyErr where
  | attributeError : String → PyErr
  | typeError : String → PyErr
deriving Repr, DecidableEq

/-- Python type name of a value, for exception messages. -/
def pyTypeName : PyVal → String
  | .null => "NoneType"
  | .bool _ => "bool"
  | .int _ => "int"
  | .str _ => "str"
  | .arr _ => "list"
  | .obj _ => "dict"

/-- Python `==` on the values the embedded code compares. Python's `bool` is
an `int` subtype, so `True == 1`. Container equality is structural in Python;
the embedded code never reaches a container/container comparison (unhashable
elements raise `TypeError` before any such comparison), so those cases are
folded into pairwise list comparison below. -/
def pyEq : PyVal → PyVal → Bool
  | .null, .null => true
  | .bool a, .bool b => a == b
  | .bool a, .int b => (if a then (1 : Int) else 0) == b
  | .int a, .bool b => a == (if b then (1 : Int) else 0)
  | .int a, .int b => a == b
  | .str a, .str b => a == b
  | .arr a, .arr b => pyEqList a b
  | _, _ => false
where
  pyEqList : List PyVal → List PyVal → Bool
  | [], [] => true
  | x :: xs, y :: ys => pyEq x y && pyEqList xs ys
  | _, _ => false

/-! ### Python string helpers -/

/-- Python `str` whitespace (ASCII subset, all the code ever strips). -/
def isPyWs (c : Char) : Bool :=
  c = ' ' || c = '\t' || c = '\n' || c = '\r' || c = '\x0b' || c = '\x0c'

/-- Python `str.strip()` (ASCII whitespace). -/
def pyStrip (s : String) : String :=
  String.mk (((s.data.dropWhile isPyWs).reverse.dropWhile isPyWs).reverse)

/-- Python `str.lower()` (ASCII case folding; the code only lowercases
ASCII UI terms). -/
def pyLower (s : String) : String :=
  String.mk (s.data.map Char.toLower)

/-- Whether `needle` begins `hay` (exact characters). -/
def startsWithL (needle hay : List Char) : Bool :=
  match needle, hay with
  | [], _ => true
  | _ :: _, [] => false
  | a :: as, b :: bs => a = b && startsWithL as bs

/-- Whether `needle` occurs somewhere in `hay` (Python `needle in hay`). -/
def containsL (hay needle : List Char) : Bool :=
  match hay with
  | [] => needle.isEmpty
  | _ :: rest => startsWithL needle hay || containsL rest needle

/-- Python `needle in hay` on strings. -/
def strContains (hay needle : String) : Bool :=
  containsL hay.data needle.data

/-- Python `str.startswith`. -/
def strStartsWith (hay needle : String) : Bool :=
  startsWithL needle.data hay.data

/-- Python `str.title()` restricted to what the code titles: uppercase each
letter that follows a non-letter, lowercase the rest. -/
def pyTitle (s : String) : String :=
  String.mk (go true s.data)
where
  go : Bool → List Char → List Char
  | _, [] => []
  | atStart, c :: rest =>
      if c.isAlpha then
        (if atStart then c.toUpper else c.toLower) :: go false rest
      else
        c :: go true rest

/-! ### A small backtracking regex engine

`matchSfx` returns the list of possible remaining suffixes after matching a
pattern at the head of the input, in Python `re`'s backtracking priority
order: alternation tries the left branch first and greedy quantifiers try
longer repetitions first.  The first element is therefore the suffix of the
match Python's engine commits to.  `fuel` bounds the recursion; every
repetition iteration in the embedded patterns consumes at least one
character, so a fuel linear in the input length is sufficient. -/

/-- Embedded regular expressions: literal strings, character classes
(ranges, possibly negated), sequencing, prioritized alternation and greedy
counted repetition `{lo,hi}` (`hi = none` means unbounded). -/
inductive Rx where
  | lit : List Char → Rx
  | cls : Bool → List (Char × Char) → Rx
  | seq : Rx → Rx → Rx
  | alt : Rx → Rx → Rx
  | rep : Nat → Option Nat → Rx → Rx
deriving Repr

/-- Literal pattern from a string. -/
def litS (s : String) : Rx := .lit s.data

/-- `eps` matches the empty string. -/
def epsRx : Rx := .lit []

/-- Right-nested alternation preserving the given priority order. -/
def altList : List Rx → Rx
  | [] => .cls false []
  | [r] => r
  | r :: rs => .alt r (altList rs)

/-- Case-insensitive-aware character comparison (ASCII folding, as Python
applies to these patterns). -/
def chEq (ic : Bool) (p c : Char) : Bool :=
  p = c || (ic && p.toLower = c.toLower)

/-- Literal match at the head of the input. -/
def litMatch (ic : Bool) : List Char → List Char → Bool
  | [], _ => true
  | _ :: _, [] => false
  | p :: ps, c :: cs => chEq ic p c && litMatch ic ps cs

/-- Membership of a char in a list of ranges. -/
def inRanges (ranges : List (Char × Char)) (c : Char) : Bool :=
  ranges.any (fun r => decide (r.1 ≤ c) && decide (c ≤ r.2))

/-- Character-class match; under `ic` Python matches a char if any case
variant of it lies in the class, and a negated class matches the complement
of that case closure. -/
def clsMatch (ic : Bool) (neg : Bool) (ranges : List (Char × Char)) (c : Char) : Bool :=
  let hit := inRanges ranges c ||
    (ic && (inRanges ranges c.toLower || inRanges ranges c.toUpper))
  if neg then !hit else hit

/-- All candidate suffixes after matching `r` at the head of `s`, in
priority order. An iteration of an unbounded repetition that consumes
nothing is not retried (the embedded patterns' repetition bodies always
consume at least one character, as Python also requires progress to end a
repeat). -/
def matchSfx (ic : Bool) : Nat → Rx → List Char → List (List Char)
  | 0, _, _ => []
  | _ + 1, .lit p, s => if litMatch ic p s then [s.drop p.length] else []
  | _ + 1, .cls neg ranges, s =>
      match s with
      | [] => []
      | c :: rest => if clsMatch ic neg ranges c then [rest] else []
  | f + 1, .seq r1 r2, s =>
      (matchSfx ic f r1 s).flatMap (fun s1 => matchSfx ic f r2 s1)
  | f + 1, .alt r1 r2, s => matchSfx ic f r1 s ++ matchSfx ic f r2 s
  | f + 1, .rep lo hi r, s =>
      match lo, hi with
      | 0, some 0 => [s]
      | 0, _ =>
          let hi' := match hi with | some h => some (h - 1) | none => none
          (((matchSfx ic f r s).filter (fun s1 => s1.length < s.length)).flatMap
            (fun s1 => matchSfx ic f (.rep 0 hi' r) s1)) ++ [s]
      | lo' + 1, _ =>
          let hi' := match hi with | some h => some (h - 1) | none => none
          (matchSfx ic f r s).flatMap (fun s1 => matchSfx ic f (.rep lo' hi' r) s1)

/-- A pattern of the shape `pre (body) post` — every pattern in the source
has a single capture group, so the group is represented structurally. -/
structure CapturePat where
  pre : Rx
  body : Rx
  post : Rx

/-- One `re` match: start offset, end offset, text of group 1. -/
structure MatchInfo where
  start : Nat
  stop : Nat
  group : String
deriving Repr, DecidableEq

/-- First successful `(pre, body, post)` decomposition at the head of `cs`,
in backtracking priority order: returns group-1 text and total consumed
length, exactly the choice Python's engine commits to. -/
def matchAt (ic : Bool) (pat : CapturePat) (cs : List Char) : Option (String × Nat) :=
  let fuel := cs.length * 4 + 100
  (matchSfx ic fuel pat.pre cs).findSome? (fun s1 =>
    (matchSfx ic fuel pat.body s1).findSome? (fun s2 =>
      ((matchSfx ic fuel pat.post s2).head?).map (fun s3 =>
        (String.mk (s1.take (s1.length - s2.length)), cs.length - s3.length))))

/-- Scanning loop of `re.finditer`: leftmost match first, next search resumes
at the end of the previous match. -/
def findIterGo (ic : Bool) (pat : CapturePat) : Nat → List Char → Nat → List MatchInfo
  | 0, _, _ => []
  | f + 1, cs, pos =>
      match matchAt ic pat cs with
      | some (grp, consumed) =>
          if consumed = 0 then
            match cs with
            | [] => []
            | _ :: rest => findIterGo ic pat f rest (pos + 1)
          else
            ⟨pos, pos + consumed, grp⟩ :: findIterGo ic pat f (cs.drop consumed) (pos + consumed)
      | none =>
          match cs with
          | [] => []
          | _ :: rest => findIterGo ic pat f rest (pos + 1)

/-- `re.finditer(pattern, s, flags)` over the whole input. -/
def findMatches (ic : Bool) (pat : CapturePat) (cs : List Char) : List MatchInfo :=
  findIterGo ic pat (cs.length + 1) cs 0

/-- `re.search(pattern, s)`: does the pattern match anywhere? -/
def rxSearch (ic : Bool) (r : Rx) (cs : List Char) : Bool :=
  !(findMatches ic ⟨r, epsRx, epsRx⟩ cs).isEmpty

/-! ### Markup text extraction (external parser boundary)

Modelled from the library call `BeautifulSoup(html_content,
"lxml").get_text(separator=" ", strip=True)` used by
`UIVerifier._extract_ui_elements`: the visible text segments between tags,
each stripped, empties dropped, joined with a single space. -/

/-- Split raw markup into its text segments (the `Bool` is the inside-a-tag
state). -/
def segsGo : List Char → Bool → List Char → List String
  | [], _, acc => [String.mk acc.reverse]
  | c :: rest, false, acc =>
      if c = '<' then String.mk acc.reverse :: segsGo rest true []
      else segsGo rest false (c :: acc)
  | c :: rest, true, acc =>
      if c = '>' then segsGo rest false [] else segsGo rest true acc

/-- `soup.get_text(separator=" ", strip=True)` over simple well-formed
markup. -/
def soupGetText (html : String) : String :=
  String.intercalate " " (((segsGo html.data false []).map pyStrip).filter (fun s => s ≠ ""))

/-! ### UI verifier (`src/auditor/ui_verifier.py`) -/

/-- `UIElement` dataclass. -/
structure UIElement where
  text : String
  element_type : String
  context : String
  platform : String
deriving Repr, DecidableEq

/-- `VerificationResult` dataclass; `confidence` is a Python float modelled
as an exact rational. -/
structure VerificationResult where
  element : UIElement
  status : String
  confidence : ℚ
  notes : Option String := none
  source : Option String := none
deriving Repr, DecidableEq

/-- `UIVerificationReport` dataclass. -/
structure UIVerificationReport where
  elements_found : List UIElement := []
  results : List VerificationResult := []
  overall_confidence : ℚ := 0
  needs_manual_review : Bool := false
  manual_review_items : List String := []
deriving Repr, DecidableEq

/-- Value type of the `KNOWN_UI_ELEMENTS` dict. -/
structure KnownInfo where
  status : String
  platform : String
  ktype : String
deriving Repr, DecidableEq

/-- `KNOWN_UI_ELEMENTS`, in the source's insertion order (Python dicts
iterate in insertion order, which the partial-match fallback relies on). -/
def KNOWN_UI_ELEMENTS : List (String × KnownInfo) := [
  ("shop manager", ⟨"current", "web", "navigation"⟩),
  ("listings", ⟨"current", "both", "navigation"⟩),
  ("orders & shipping", ⟨"current", "web", "navigation"⟩),
  ("messages", ⟨"current", "both", "navigation"⟩),
  ("marketing", ⟨"current", "web", "navigation"⟩),
  ("finances", ⟨"current", "web", "navigation"⟩),
  ("settings", ⟨"current", "both", "navigation"⟩),
  ("stats", ⟨"current", "both", "navigation"⟩),
  ("add a listing", ⟨"current", "both", "button"⟩),
  ("save", ⟨"current", "both", "button"⟩),
  ("publish", ⟨"current", "both", "button"⟩),
  ("edit", ⟨"current", "both", "button"⟩),
  ("delete", ⟨"current", "both", "button"⟩),
  ("renew", ⟨"current", "both", "button"⟩),
  ("deactivate", ⟨"current", "both", "button"⟩),
  ("your account", ⟨"current", "web", "navigation"⟩),
  ("purchases and reviews", ⟨"current", "web", "navigation"⟩),
  ("account settings", ⟨"current", "web", "navigation"⟩),
  ("favorites", ⟨"current", "both", "navigation"⟩),
  ("cart", ⟨"current", "both", "navigation"⟩),
  ("you tab", ⟨"current", "app", "navigation"⟩),
  ("shop icon", ⟨"current", "app", "navigation"⟩),
  ("three dots menu", ⟨"current", "app", "menu"⟩),
  ("hamburger menu", ⟨"current", "app", "menu"⟩)]

/-- `OUTDATED_PATTERNS` — each entry is a regex consisting only of literal
characters, so `re.search` on them is a substring test. -/
def OUTDATED_PATTERNS : List String := [
  "click the gear icon",
  "go to your shop",
  "direct checkout",
  "alchemy"]

/-- Python whitespace class `\s` (ASCII part: tab through carriage return
and space). -/
def wsC : Rx := .cls false [('\t', '\r'), (' ', ' ')]

/-- `[A-Z]` — with `re.IGNORECASE` this matches lowercase letters too. -/
def upperC : Rx := .cls false [('A', 'Z')]

/-- `[^.!?\n]`. -/
def notSentC : Rx := .cls true [('.', '.'), ('!', '!'), ('?', '?'), ('\n', '\n')]

/-- `[^.!?\n>]`. -/
def notSentGtC : Rx := .cls true [('.', '.'), ('!', '!'), ('?', '?'), ('\n', '\n'), ('>', '>')]

/-- `(?:\s*>\s*[A-Z][^.!?\n>]{2,30})` — one drill-down chain step, shared by
both navigation patterns. -/
def chainStep : Rx :=
  .seq (.rep 0 none wsC) (.seq (litS ">") (.seq (.rep 0 none wsC)
    (.seq upperC (.rep 2 (some 30) notSentGtC))))

/-- Nav pattern (a):
`(?:go to|navigate to|select|click|tap|open)\s+([A-Z][^.!?\n]{5,50}(?:\s*>\s*[A-Z][^.!?\n>]{2,30})*)`. -/
def navPat1 : CapturePat where
  pre := .seq (altList [litS "go to", litS "navigate to", litS "select",
    litS "click", litS "tap", litS "open"]) (.rep 1 none wsC)
  body := .seq upperC (.seq (.rep 5 (some 50) notSentC) (.rep 0 none chainStep))
  post := epsRx

/-- Nav pattern (b):
`(?:from|in|under)\s+(?:the\s+)?([A-Z][^.!?\n]{3,30}(?:\s*>\s*[A-Z][^.!?\n>]{2,30})+)`. -/
def navPat2 : CapturePat where
  pre := .seq (altList [litS "from", litS "in", litS "under"])
    (.seq (.rep 1 none wsC) (.rep 0 (some 1) (.seq (litS "the") (.rep 1 none wsC))))
  body := .seq upperC (.seq (.rep 3 (some 30) notSentC) (.rep 1 none chainStep))
  post := epsRx

/-- Shared button-verb stem `(?:click|tap|select|press)\s+(?:the\s+)?`. -/
def btnStem : Rx :=
  .seq (altList [litS "click", litS "tap", litS "select", litS "press"])
    (.seq (.rep 1 none wsC) (.rep 0 (some 1) (.seq (litS "the") (.rep 1 none wsC))))

/-- `["“]([^"”]+)["”]` after the verb stem. -/
def btnPat1 : CapturePat where
  pre := .seq btnStem (.cls false [('"', '"'), (Char.ofNat 0x201c, Char.ofNat 0x201c)])
  body := .rep 1 none (.cls true [('"', '"'), (Char.ofNat 0x201d, Char.ofNat 0x201d)])
  post := .cls false [('"', '"'), (Char.ofNat 0x201d, Char.ofNat 0x201d)]

/-- `<(?:strong|b)>([^<]+)</(?:strong|b)>` after the verb stem. -/
def btnPat2 : CapturePat where
  pre := .seq btnStem (.seq (litS "<") (.seq (altList [litS "strong", litS "b"]) (litS ">")))
  body := .rep 1 none (.cls true [('<', '<')])
  post := .seq (litS "</") (.seq (altList [litS "strong", litS "b"]) (litS ">"))

/-- `\*\*([^*]+)\*\*` after the verb stem. -/
def btnPat3 : CapturePat where
  pre := .seq btnStem (litS "**")
  body := .rep 1 none (.cls true [('*', '*')])
  post := litS "**"

/-- Substring `text[a:b]` by character offsets (Python slicing). -/
def sliceStr (s : String) (a b : Nat) : String :=
  String.mk ((s.data.drop a).take (b - a))

/-- Platform inference over a navigation match's context window
(`_extract_ui_elements`, lines 116–121). -/
def inferPlatform (context : String) : String :=
  let context_lower := pyLower context
  if strContains context_lower "app" || strContains context_lower "mobile" then "app"
  else if strContains context_lower "website" || strContains context_lower "browser" ||
      strContains context_lower "etsy.com" then "web"
  else "unknown"

/-- `UIVerifier._extract_ui_elements`: navigation paths from the soup text
via the two nav patterns, then button mentions from the raw markup via the
three button patterns, all with `re.IGNORECASE`. -/
def extract_ui_elements (html_content : String) : List UIElement :=
  let text := soupGetText html_content
  let navElems := [navPat1, navPat2].flatMap (fun pat =>
    (findMatches true pat text.data).map (fun m =>
      let path := pyStrip m.group
      let start := if m.start < 50 then 0 else m.start - 50
      let stop := min text.length (m.stop + 50)
      let context := sliceStr text start stop
      { text := path, element_type := "navigation", context := context,
        platform := inferPlatform context }))
  let btnElems := [btnPat1, btnPat2, btnPat3].flatMap (fun pat =>
    (findMatches true pat html_content.data).filterMap (fun m =>
      let button_text := pyStrip m.group
      if 2 < button_text.length && button_text.length < 50 then
        let start := if m.start < 50 then 0 else m.start - 50
        let stop := min html_content.length (m.stop + 50)
        some { text := button_text, element_type := "button",
               context := sliceStr html_content start stop, platform := "unknown" }
      else none))
  navElems ++ btnElems

/-- `UIVerifier._check_known_element`: exact table match, then outdated
patterns, then partial table match, else `None`. -/
def check_known_element (element : UIElement) : Option VerificationResult :=
  let element_lower := pyStrip (pyLower element.text)
  match KNOWN_UI_ELEMENTS.lookup element_lower with
  | some info =>
      some { element := element,
             status := if info.status = "current" then "verified" else "potentially_outdated",
             confidence := 9 / 10,
             notes := some ("Matched known UI element (" ++ info.platform ++ ")"),
             source := some "known_elements_db" }
  | none =>
      match OUTDATED_PATTERNS.find? (fun p => strContains element_lower p) with
      | some p =>
          some { element := element, status := "potentially_outdated",
                 confidence := 7 / 10,
                 notes := some ("Matches potentially outdated pattern: " ++ p),
                 source := some "outdated_patterns_db" }
      | none =>
          match KNOWN_UI_ELEMENTS.find?
              (fun kv => strContains element_lower kv.1 || strContains kv.1 element_lower) with
          | some kv =>
              some { element := element, status := "verified", confidence := 7 / 10,
                     notes := some ("Partial match to known element: " ++ kv.1),
                     source := some "known_elements_db" }
          | none => none

/-- `UIVerifier._verify_live`: without authenticated access it always
returns the unverified fallback. -/
def verify_live (element : UIElement) : VerificationResult :=
  { element := element, status := "unverified", confidence := 3 / 10,
    notes := some "Could not verify against known elements - manual review recommended",
    source := some "live_check" }

/-- Per-element classification in `verify_article`'s loop: known-element
check first, live fallback when it returns `None`. -/
def classify_element (element : UIElement) : VerificationResult :=
  match check_known_element element with
  | some result => result
  | none => verify_live element

/-- Whether a result joins the manual-review list (`result.status in
["unverified", "potentially_outdated"]`). -/
def needsReview (r : VerificationResult) : Bool :=
  r.status == "unverified" || r.status == "potentially_outdated"

/-- The manual-review line
`f"{element.element_type.title()}: '{element.text}' - {result.notes}"`;
every constructed result carries its own element, and a present `notes`
string prints bare in the f-string. -/
def manualItem (r : VerificationResult) : String :=
  pyTitle r.element.element_type ++ ": " ++ "\x27" ++ r.element.text ++ "\x27 - " ++
    (match r.notes with | some n => n | none => "None")

/-- `UIVerifier.verify_article`: extract, classify each element, collect
manual-review items, aggregate confidence (mean, or 1.0 for no results). -/
def verify_article (html_content : String) : UIVerificationReport :=
  let elements := extract_ui_elements html_content
  let results := elements.map classify_element
  let manual_review_items :=
    results.filterMap (fun r => if needsReview r then some (manualItem r) else none)
  let overall_confidence : ℚ :=
    if results.isEmpty then 1
    else (results.map (fun r => r.confidence)).sum / (results.length : ℚ)
  { elements_found := elements, results := results,
    overall_confidence := overall_confidence,
    needs_manual_review := decide (0 < manual_review_items.length),
    manual_review_items := manual_review_items }

/-! ### Content analyzer (`src/auditor/content_analyzer.py`) -/

/-- `Issue` dataclass. The analysis collaborator is untrusted, so every
field populated from its output is a dynamic `PyVal` exactly as Python's
unchecked dataclass stores it; `location`/`recommendation` default to
`None`. -/
structure Issue where
  category : PyVal
  severity : PyVal
  description : PyVal
  location : PyVal := .null
  recommendation : PyVal := .null
deriving Repr

/-- `AnalysisResult` dataclass (same dynamic-field convention; the issue
list and the hardcoded-link list are genuine Python lists). -/
structure AnalysisResult where
  overall_score : PyVal
  audience_detected : PyVal
  audience_mismatch : PyVal
  issues : List Issue := []
  has_web_instructions : PyVal := .bool false
  has_app_instructions : PyVal := .bool false
  hardcoded_links : List PyVal := []
  member_services_flag : PyVal := .bool false
  flag_reason : PyVal := .null
  raw_analysis : PyVal := .null
deriving Repr

/-- `ContentAnalyzer._check_hardcoded_links`: the document's hyperlink
elements (as found by `soup.find_all("a", href=True)`, in document order)
are the input; an href is collected when it is on the help domain or is a
root-relative help path and its path embeds a `/hc/xx-yy/` language
segment. The source appends inside a loop, so duplicates are kept. -/
structure LinkEl where
  text : String
  href : String
deriving Repr, DecidableEq

/-- The compiled pattern `/hc/[a-z]{2}-[a-z]{2}/`. -/
def hcLangRx : Rx :=
  .seq (litS "/hc/") (.seq (.rep 2 (some 2) (.cls false [('a', 'z')]))
    (.seq (litS "-") (.seq (.rep 2 (some 2) (.cls false [('a', 'z')])) (litS "/"))))

def check_hardcoded_links (links : List LinkEl) : List String :=
  links.filterMap (fun a =>
    if (strContains a.href "help.etsy.com" || strStartsWith a.href "/hc/") &&
        rxSearch false hcLangRx a.href.data then
      some a.href
    else none)

/-! #### `json.loads`, modelled

A recursive-descent parser for the JSON subset the embedded code feeds it:
objects, arrays, strings without escape sequences, integer numbers,
`true`/`false`/`null`, with arbitrary whitespace. Inputs outside the subset
(string escapes, fractional numbers) fail the parse, which lands in the
same degraded path as a `json.JSONDecodeError`. Duplicate object keys keep
the last occurrence, as `json.loads` does. -/

def skipWs (cs : List Char) : List Char := cs.dropWhile isPyWs

/-- Insert a key/value pair, overriding an earlier duplicate key. -/
def insertKV (kvs : List (String × PyVal)) (k : String) (v : PyVal) : List (String × PyVal) :=
  (kvs.filter (fun kv => kv.1 ≠ k)) ++ [(k, v)]

/-- The `\x7b` character. -/
def lbraceC : Char := Char.ofNat 123

/-- The `\x7d` character. -/
def rbraceC : Char := Char.ofNat 125

/-- JSON string body up to the closing quote (escape sequences are outside
the modelled subset). -/
def parseStr : List Char → List Char → Option (String × List Char)
  | [], _ => none
  | c :: rest, acc =>
      if c = '"' then some (String.mk acc.reverse, rest)
      else if c = '\\' then none
      else parseStr rest (c :: acc)

/-- Decimal digits to a number. -/
def natOfDigits (ds : List Char) : Nat :=
  ds.foldl (fun n c => n * 10 + (c.toNat - 48)) 0

mutual

def parseJsonVal : Nat → List Char → Option (PyVal × List Char)
  | 0, _ => none
  | f + 1, cs =>
    match skipWs cs with
    | [] => none
    | c :: rest =>
      if c = lbraceC then parseObjFields f (skipWs rest) []
      else if c = '[' then parseArrItems f (skipWs rest) []
      else if c = '"' then
        match parseStr rest [] with
        | some (s, rest') => some (.str s, rest')
        | none => none
      else if startsWithL "true".data (c :: rest) then some (.bool true, (c :: rest).drop 4)
      else if startsWithL "false".data (c :: rest) then some (.bool false, (c :: rest).drop 5)
      else if startsWithL "null".data (c :: rest) then some (.null, (c :: rest).drop 4)
      else if c = '-' then
        match rest with
        | d :: _ =>
            if d.isDigit then
              some (.int (-(Int.ofNat (natOfDigits (rest.takeWhile Char.isDigit)))),
                rest.dropWhile Char.isDigit)
            else none
        | [] => none
      else if c.isDigit then
        some (.int (Int.ofNat (natOfDigits ((c :: rest).takeWhile Char.isDigit))),
          (c :: rest).dropWhile Char.isDigit)
      else none

def parseObjFields : Nat → List Char → List (String × PyVal) → Option (PyVal × List Char)
  | 0, _, _ => none
  | f + 1, cs, acc =>
    match cs with
    | [] => none
    | c :: rest =>
      if c = rbraceC then some (.obj acc, rest)
      else if c = '"' then
        match parseStr rest [] with
        | some (k, rest') =>
          (match skipWs rest' with
           | ':' :: rest'' =>
             (match parseJsonVal f rest'' with
              | some (v, rest3) =>
                (match skipWs rest3 with
                 | c4 :: rest4 =>
                   if c4 = ',' then parseObjFields f (skipWs rest4) (insertKV acc k v)
                   else if c4 = rbraceC then some (.obj (insertKV acc k v), rest4)
                   else none
                 | [] => none)
              | none => none)
           | _ => none)
        | none => none
      else none

def parseArrItems : Nat → List Char → List PyVal → Option (PyVal × List Char)
  | 0, _, _ => none
  | f + 1, cs, acc =>
    match cs with
    | ']' :: rest => some (.arr acc.reverse, rest)
    | _ =>
      match parseJsonVal f cs with
      | some (v, rest) =>
        (match skipWs rest with
         | ',' :: rest' => parseArrItems f (skipWs rest') (v :: acc)
         | ']' :: rest' => some (.arr (v :: acc).reverse, rest')
         | _ => none)
      | none => none

end

/-- `json.loads` over a complete input (trailing whitespace allowed, other
trailing characters are a decode error). -/
def json_loads (s : String) : Option PyVal :=
  match parseJsonVal (2 * s.length + 8) s.data with
  | some (v, rest) => if (skipWs rest).isEmpty then some v else none
  | none => none

/-- `re.search(r'\x7b[\s\S]*\x7d', s)`: the leftmost `\x7b` up to the last
`\x7d` after it, or no match. -/
def bracesExtract (s : String) : Option String :=
  let cs := s.data
  match cs.findIdx? (fun c => c = '{') with
  | none => none
  | some i =>
      match cs.reverse.findIdx? (fun c => c = '}') with
      | none => none
      | some jr =>
          let j := cs.length - 1 - jr
          if i < j then some (String.mk ((cs.drop i).take (j + 1 - i))) else none

/-! #### Python dynamic operations used while building the result -/

/-- `v.get(key, default)` — only dicts have `.get`; anything else raises
`AttributeError`. -/
def pyDictGet (v : PyVal) (key : String) (default : PyVal) : Except PyErr PyVal :=
  match v with
  | .obj kvs => .ok ((kvs.lookup key).getD default)
  | other => .error (.attributeError
      ("\x27" ++ pyTypeName other ++ "\x27 object has no attribute \x27get\x27"))

/-- `for x in v`: lists yield elements, strings their characters, dicts
their keys; other values raise `TypeError`. -/
def pyIter (v : PyVal) : Except PyErr (List PyVal) :=
  match v with
  | .arr xs => .ok xs
  | .str s => .ok (s.data.map (fun c => .str (String.mk [c])))
  | .obj kvs => .ok (kvs.map (fun kv => .str kv.1))
  | other => .error (.typeError ("\x27" ++ pyTypeName other ++ "\x27 object is not iterable"))

/-- `list + v` — Python list concatenation demands a list on the right. -/
def pyListConcat (xs : List PyVal) (v : PyVal) : Except PyErr (List PyVal) :=
  match v with
  | .arr ys => .ok (xs ++ ys)
  | other => .error (.typeError
      ("can only concatenate list (not \x22" ++ pyTypeName other ++ "\x22) to list"))

/-- `list(set(xs))` — elements must be hashable (lists/dicts are not); the
result keeps one representative per `==`-class. CPython's set iteration
order is hash-dependent; first-occurrence order is one admissible order and
nothing downstream reads the order. -/
def pySetDedup (xs : List PyVal) : Except PyErr (List PyVal) :=
  if xs.any (fun v => match v with | .arr _ => true | .obj _ => true | _ => false) then
    .error (.typeError "unhashable type")
  else
    .ok (xs.foldl (fun acc v => if acc.any (fun w => pyEq w v) then acc else acc ++ [v]) [])

/-- One entry of the model-reported issues array becomes an `Issue`
(`ContentAnalyzer.analyze`, lines 229–236); any non-dict entry raises
`AttributeError` at the first `.get`. -/
def buildIssue (item : PyVal) : Except PyErr Issue := do
  let category ← pyDictGet item "category" (.str "technical")
  let severity ← pyDictGet item "severity" (.str "warning")
  let description ← pyDictGet item "description" (.str "")
  let location ← pyDictGet item "location" .null
  let recommendation ← pyDictGet item "recommendation" .null
  return { category := category, severity := severity, description := description,
           location := location, recommendation := recommendation }

/-- The degraded `AnalysisResult` of the parse-failure path
(`ContentAnalyzer.analyze`, lines 213–225). -/
def degradedResult (response_text : String) : AnalysisResult :=
  { overall_score := .int 0,
    audience_detected := .str "Unknown",
    audience_mismatch := .bool false,
    issues := [{ category := .str "technical", severity := .str "critical",
                 description := .str "Failed to parse analysis response",
                 recommendation := .str "Please try again" }],
    raw_analysis := .str response_text }

/-- The synthesized hardcoded-link `Issue` (`analyze`, lines 241–246). -/
def hardcodedIssue (n : Nat) : Issue :=
  { category := .str "technical", severity := .str "warning",
    description := .str ("Found " ++ toString n ++ " link(s) with hardcoded language tags"),
    recommendation := .str ("Remove /en-us/ or similar language tags from internal links " ++
      "for dynamic localization") }

/-- The Analysis Response Interpreter: the response-handling tail of
`ContentAnalyzer.analyze` (lines 202–259), taking the hygiene pre-scan's
hardcoded-link list and the raw model response text. The `try` block covers
only locating and parsing the structured literal; everything after it runs
unprotected, so a dynamic type error there escapes as `.error`. -/
def interpret_response (hardcoded_links : List String) (response_text : String) :
    Except PyErr AnalysisResult :=
  match bracesExtract response_text with
  | none => .ok (degradedResult response_text)
  | some jtxt =>
    match json_loads jtxt with
    | none => .ok (degradedResult response_text)
    | some analysis => do
        let issuesVal ← pyDictGet analysis "issues" (.arr [])
        let items ← pyIter issuesVal
        let issues ← items.mapM buildIssue
        let reported ← pyDictGet analysis "hardcoded_links" (.arr [])
        let combined ← pyListConcat (hardcoded_links.map PyVal.str) reported
        let all_hardcoded ← pySetDedup combined
        let issues :=
          if all_hardcoded.isEmpty then issues
          else issues ++ [hardcodedIssue all_hardcoded.length]
        let overall_score ← pyDictGet analysis "overall_score" (.int 0)
        let audience_detected ← pyDictGet analysis "audience_detected" (.str "Unknown")
        let audience_mismatch ← pyDictGet analysis "audience_mismatch" (.bool false)
        let has_web ← pyDictGet analysis "has_web_instructions" (.bool false)
        let has_app ← pyDictGet analysis "has_app_instructions" (.bool false)
        let member_flag ← pyDictGet analysis "member_services_flag" (.bool false)
        let flag_reason ← pyDictGet analysis "flag_reason" .null
        let summary ← pyDictGet analysis "summary" .null
        return { overall_score := overall_score, audience_detected := audience_detected,
                 audience_mismatch := audience_mismatch, issues := issues,
                 has_web_instructions := has_web, has_app_instructions := has_app,
                 hardcoded_links := all_hardcoded, member_services_flag := member_flag,
                 flag_reason := flag_reason, raw_analysis := summary }

/-! ### Report assembly (`src/auditor/report.py`, `src/auditor/zendesk_client.py`) -/

/-- `Article` dataclass (the fields `generate_report` reads, plus the
`segment` the `audience` property derives from). -/
structure Article where
  id : Int
  title : String
  body : String
  html_url : String
  section_id : Int
  section_name : Option String := none
  locale : String := "en-us"
  segment : Option String := none
deriving Repr, DecidableEq

/-- `Article.audience` property. -/
def Article.audience (a : Article) : String :=
  if a.segment = some "shopping" then "Buyer"
  else if a.segment = some "selling" then "Seller"
  else "Both/Unknown"

/-- `AuditReport` dataclass. `audit_timestamp` is whatever
`datetime.now().isoformat()` produced; the caller passes it in. -/
structure AuditReport where
  article_id : Int
  article_title : String
  article_url : String
  audit_timestamp : String
  overall_score : PyVal
  quality_rating : String
  declared_audience : String
  detected_audience : PyVal
  audience_mismatch : PyVal
  has_web_instructions : PyVal
  has_app_instructions : PyVal
  actionable_issues : List Issue := []
  brief_issues : List Issue := []
  targeted_issues : List Issue := []
  technical_issues : List Issue := []
  audience_issues : List Issue := []
  hardcoded_links : List PyVal := []
  ui_elements_verified : Nat := 0
  ui_elements_total : Nat := 0
  ui_confidence : ℚ := 0
  ui_manual_review_items : List String := []
  member_services_flag : PyVal := .bool false
  flag_reason : PyVal := .null
  summary : PyVal := .null
deriving Repr

/-- `AuditReport.total_issues` property. -/
def AuditReport.total_issues (r : AuditReport) : Nat :=
  r.actionable_issues.length + r.brief_issues.length + r.targeted_issues.length +
    r.technical_issues.length + r.audience_issues.length

/-- `AuditReport.critical_issues` property. -/
def AuditReport.critical_issues (r : AuditReport) : List Issue :=
  (r.actionable_issues ++ r.brief_issues ++ r.targeted_issues ++
    r.technical_issues ++ r.audience_issues).filter
      (fun i => pyEq i.severity (.str "critical"))

/-- `_get_quality_rating` over its annotated `int` argument. -/
def get_quality_rating (score : Int) : String :=
  if score ≥ 90 then "Excellent"
  else if score ≥ 75 then "Good"
  else if score ≥ 60 then "Needs Work"
  else "Critical Issues"

/-- `_get_quality_rating` applied to the dynamically typed
`analysis.overall_score`: Python's `score >= 90` works for `int` (and its
subtype `bool`) and raises `TypeError` for any other stored shape. -/
def pyQualityRating : PyVal → Except PyErr String
  | .int n => .ok (get_quality_rating n)
  | .bool b => .ok (get_quality_rating (if b then 1 else 0))
  | v => .error (.typeError
      ("\x27>=\x27 not supported between instances of \x27" ++ pyTypeName v ++
        "\x27 and \x27int\x27"))

/-- `generate_report(article, analysis, ui_report)` with the assembly-time
timestamp passed explicitly. -/
def generate_report (article : Article) (analysis : AnalysisResult)
    (ui_report : Option UIVerificationReport) (now_iso : String) :
    Except PyErr AuditReport :=
  let actionable_issues := analysis.issues.filter (fun i => pyEq i.category (.str "actionable"))
  let brief_issues := analysis.issues.filter (fun i => pyEq i.category (.str "brief"))
  let targeted_issues := analysis.issues.filter (fun i => pyEq i.category (.str "targeted"))
  let technical_issues := analysis.issues.filter (fun i => pyEq i.category (.str "technical"))
  let audience_issues := analysis.issues.filter (fun i => pyEq i.category (.str "audience"))
  let uiStats : Nat × Nat × ℚ × List String :=
    match ui_report with
    | some r => ((r.results.filter (fun x => x.status == "verified")).length,
        r.elements_found.length, r.overall_confidence, r.manual_review_items)
    | none => (0, 0, 1, [])
  match pyQualityRating analysis.overall_score with
  | .error e => .error e
  | .ok rating =>
      .ok { article_id := article.id, article_title := article.title,
            article_url := article.html_url, audit_timestamp := now_iso,
            overall_score := analysis.overall_score, quality_rating := rating,
            declared_audience := article.audience,
            detected_audience := analysis.audience_detected,
            audience_mismatch := analysis.audience_mismatch,
            has_web_instructions := analysis.has_web_instructions,
            has_app_instructions := analysis.has_app_instructions,
            actionable_issues := actionable_issues, brief_issues := brief_issues,
            targeted_issues := targeted_issues, technical_issues := technical_issues,
            audience_issues := audience_issues,
            hardcoded_links := analysis.hardcoded_links,
            ui_elements_verified := uiStats.1, ui_elements_total := uiStats.2.1,
            ui_confidence := uiStats.2.2.1, ui_manual_review_items := uiStats.2.2.2,
            member_services_flag := analysis.member_services_flag,
            flag_reason := analysis.flag_reason, summary := analysis.raw_analysis }

/-- A concrete fetched article for the closed evaluation theorems. -/
def sampleArticle : Article :=
  { id := 360000000001, title := "How to Save a Listing",
    body := "<p>Click <strong>Save</strong> to continue.</p>",
    html_url := "https://help.etsy.com/hc/en-us/articles/360000000001",
    section_id := 1, section_name := some "Selling", segment := some "selling" }

/-! ### General lemmas -/

/-- A loop that appends `f a` exactly when `p a` holds equals mapping `f`
over the filtered list. -/
theorem filterMap_guard_eq_map_filter {α β : Type} (p : α → Bool) (f : α → β) :
    ∀ l : List α,
      l.filterMap (fun a => if p a then some (f a) else none) = (l.filter p).map f := by
  intro l
  induction l with
  | nil => rfl
  | cons a t ih =>
      by_cases h : p a <;>
        simp [List.filterMap_cons, List.filter_cons, h, ih]

/-! ### Claim theorems -/

/-- C1: the spec demands that the Analysis Response Interpreter never lets
an exception escape for any input string, including structured literals
whose fields have unexpected shapes. The code's `try` block protects only
the parse itself: for the response text consisting of the structured
literal with `issues` bound to the array holding the number `0`, the issue
loop calls `.get` on an `int` and an `AttributeError` escapes the
component, so the code contradicts the spec's stated guarantee. -/
theorem claim_C1_interpreter_raises :
    interpret_response [] "\x7b\"issues\": [0]\x7d" =
      .error (.attributeError "\x27int\x27 object has no attribute \x27get\x27") := by
  rfl

/-- The analysis result used for the C2 counterexample: one issue whose
category tag is none of the five recognized tags. -/
def c2Analysis : AnalysisResult :=
  { overall_score := .int 50, audience_detected := .str "Both",
    audience_mismatch := .bool false,
    issues := [{ category := .str "bogus", severity := .str "warning",
                 description := .str "this issue is silently dropped" }] }

/-- C2 counterexample: `generate_report` succeeds on an analysis carrying
one issue with the unrecognized category tag "bogus", yet the report's five
category buckets together hold zero issues — the issue is neither rejected
nor bucketed under a catch-all, contradicting the claim. -/
theorem claim_C2_counterexample :
    (generate_report sampleArticle c2Analysis none "2026-10-12T00:00:00").map
        AuditReport.total_issues = .ok 0 ∧
      c2Analysis.issues.length = 1 := by
  exact ⟨rfl, rfl⟩

/-- C2 (amended): for every successfully generated report, an issue of the
analysis lies in a category bucket exactly when its category tag `==`-equals
that bucket's tag — so the partition is total and disjoint over the five
recognized tags — but an issue whose tag matches none of the five lies in
no bucket at all (it silently vanishes, the behavior §9 of the spec records
as an open question). -/
theorem claim_C2_amended_buckets (article : Article) (analysis : AnalysisResult)
    (ui : Option UIVerificationReport) (ts : String) (r : AuditReport)
    (h : generate_report article analysis ui ts = .ok r)
    (i : Issue) (hi : i ∈ analysis.issues) :
    (i ∈ r.actionable_issues ↔ pyEq i.category (.str "actionable") = true) ∧
    (i ∈ r.brief_issues ↔ pyEq i.category (.str "brief") = true) ∧
    (i ∈ r.targeted_issues ↔ pyEq i.category (.str "targeted") = true) ∧
    (i ∈ r.technical_issues ↔ pyEq i.category (.str "technical") = true) ∧
    (i ∈ r.audience_issues ↔ pyEq i.category (.str "audience") = true) := by
  cases hq : pyQualityRating analysis.overall_score with
  | error e => simp [generate_report, hq] at h
  | ok rating =>
      simp only [generate_report, hq, Except.ok.injEq] at h
      subst h
      refine ⟨?_, ?_, ?_, ?_, ?_⟩ <;> simp [List.mem_filter, hi]

/-- The witness issue for C2's amended theorem. -/
def c2wIssue : Issue :=
  { category := .str "actionable", severity := .str "warning",
    description := .str "steps incomplete" }

/-- The witness analysis for C2's amended theorem. -/
def c2wAnalysis : AnalysisResult :=
  { overall_score := .int 80, audience_detected := .str "Seller",
    audience_mismatch := .bool false, issues := [c2wIssue] }

/-- The report `generate_report` produces from `c2wAnalysis`. -/
def c2wReport : AuditReport :=
  { article_id := 360000000001, article_title := "How to Save a Listing",
    article_url := "https://help.etsy.com/hc/en-us/articles/360000000001",
    audit_timestamp := "2026-10-12T00:00:00", overall_score := .int 80,
    quality_rating := "Good", declared_audience := "Seller",
    detected_audience := .str "Seller", audience_mismatch := .bool false,
    has_web_instructions := .bool false, has_app_instructions := .bool false,
    actionable_issues := [c2wIssue], ui_confidence := 1 }

theorem claim_C2_amended_witness : c2wIssue ∈ c2wReport.actionable_issues :=
  ((claim_C2_amended_buckets sampleArticle c2wAnalysis none "2026-10-12T00:00:00"
      c2wReport rfl c2wIssue (List.mem_singleton.mpr rfl)).1).mpr rfl

/-- The article body of end-to-end scenario 1. -/
def scenarioBody : String := "<p>Click <strong>Save</strong> to continue.</p>"

/-- C3 counterexample: on the scenario-1 body the extractor finds two
elements, not exactly one — because the patterns run under `re.IGNORECASE`,
the leading `[A-Z]` of the captured navigation phrase also matches
case-insensitively and the text "Click Save to continue." yields a
navigation element alongside the bold-markup button. -/
theorem claim_C3_counterexample :
    (extract_ui_elements scenarioBody).length ≠ 1 := by
  decide

/-- C3 (amended): the navigation patterns match fully case-insensitively —
even the captured phrase's leading character class admits lowercase, as the
body "click save now." shows — and on the scenario-1 body the extractor
finds exactly two elements: the navigation path "Save to continue"
(classified verified at confidence 0.7 by partial match) and the button
"Save" (classified verified at confidence 0.9 by exact match). -/
theorem claim_C3_amended_extraction :
    extract_ui_elements scenarioBody =
      [{ text := "Save to continue", element_type := "navigation",
         context := "Click Save to continue.", platform := "unknown" },
       { text := "Save", element_type := "button",
         context := scenarioBody, platform := "unknown" }] ∧
    (verify_article scenarioBody).results.map (fun r => (r.status, r.confidence)) =
      [("verified", 7 / 10), ("verified", 9 / 10)] ∧
    extract_ui_elements "click save now." =
      [{ text := "save now", element_type := "navigation",
         context := "click save now.", platform := "unknown" }] := by
  exact ⟨rfl, rfl, rfl⟩

/-- C4: classification priority — an element whose lowercased, stripped
text is a key of the reference table marked current is always classified
`verified` at confidence 0.9 by the first branch, regardless of anything
the later outdated-pattern, partial-match or live branches would say. -/
theorem claim_C4_exact_match_wins (e : UIElement) (info : KnownInfo)
    (hlook : KNOWN_UI_ELEMENTS.lookup (pyStrip (pyLower e.text)) = some info)
    (hcur : info.status = "current") :
    check_known_element e =
      some { element := e, status := "verified", confidence := 9 / 10,
             notes := some ("Matched known UI element (" ++ info.platform ++ ")"),
             source := some "known_elements_db" } := by
  simp only [check_known_element, hlook, hcur, if_pos]

/-- The element for C4's witness. -/
def c4wElement : UIElement :=
  { text := "Save", element_type := "button",
    context := "Click Save.", platform := "unknown" }

theorem claim_C4_witness :
    check_known_element c4wElement =
      some { element := c4wElement,
             status := "verified", confidence := 9 / 10,
             notes := some "Matched known UI element (both)",
             source := some "known_elements_db" } :=
  claim_C4_exact_match_wins _ ⟨"current", "both", "button"⟩ rfl rfl

/-- C5: the quality rating derived from the overall score follows the fixed
thresholds 90/75/60. -/
theorem claim_C5_quality_rating_bands (score : Int) :
    (90 ≤ score → get_quality_rating score = "Excellent") ∧
    (75 ≤ score ∧ score < 90 → get_quality_rating score = "Good") ∧
    (60 ≤ score ∧ score < 75 → get_quality_rating score = "Needs Work") ∧
    (score < 60 → get_quality_rating score = "Critical Issues") := by
  refine ⟨fun h => ?_, fun h => ?_, fun h => ?_, fun h => ?_⟩ <;>
    simp only [get_quality_rating] <;>
    split_ifs <;>
    first
    | rfl
    | (exfalso; omega)

theorem claim_C5_witness : get_quality_rating 85 = "Good" :=
  (claim_C5_quality_rating_bands 85).2.1 ⟨by decide, by decide⟩

/-- C6: the aggregate confidence of a UI verification report is the
arithmetic mean of the per-result confidences when at least one element was
extracted, and exactly 1 when none was. -/
theorem claim_C6_aggregate_confidence (html : String) :
    ((verify_article html).results.length = (verify_article html).elements_found.length) ∧
    (extract_ui_elements html = [] → (verify_article html).overall_confidence = 1) ∧
    (extract_ui_elements html ≠ [] →
      (verify_article html).overall_confidence =
        ((verify_article html).results.map (fun r => r.confidence)).sum /
          ((verify_article html).results.length : ℚ)) := by
  refine ⟨?_, ?_, ?_⟩
  · simp [verify_article]
  · intro h
    simp [verify_article, h]
  · intro h
    simp only [verify_article]
    rw [if_neg]
    simp [h]

theorem claim_C6_witness :
    (verify_article "click save now.").overall_confidence =
      ((verify_article "click save now.").results.map (fun r => r.confidence)).sum /
        ((verify_article "click save now.").results.length : ℚ) :=
  (claim_C6_aggregate_confidence "click save now.").2.2 (by decide)

/-- C7 counterexample: when the same hardcoded-language link occurs in two
hyperlink elements, the scanner's output contains that href twice — the
returned list is not deduplicated. -/
theorem claim_C7_counterexample :
    ¬ (check_hardcoded_links
        [{ text := "first", href := "/hc/en-us/articles/1" },
         { text := "second", href := "/hc/en-us/articles/1" }]).Nodup := by
  decide

/-- C7 (amended): the scanner returns the hrefs of the flagged hyperlink
elements in document order, one entry per occurrence (duplicates are kept;
deduplication only happens later when `analyze` unions the list with the
model-reported links). -/
theorem claim_C7_amended_occurrences (links : List LinkEl) :
    check_hardcoded_links links =
      (links.filter (fun a =>
        (strContains a.href "help.etsy.com" || strStartsWith a.href "/hc/") &&
          rxSearch false hcLangRx a.href.data)).map (fun a => a.href) :=
  filterMap_guard_eq_map_filter _ _ links

/-- C8: the scanner flags the absolute help-domain link with an `en-us`
segment and the root-relative `fr-fr` link, but flags neither the
help-domain link without a language segment nor a link on an unrelated
external domain (even one whose path carries a language-like segment). -/
theorem claim_C8_flagging_examples :
    check_hardcoded_links
      [{ text := "a", href := "https://help.etsy.com/hc/en-us/articles/123" },
       { text := "b", href := "/hc/fr-fr/articles/456" },
       { text := "c", href := "https://help.etsy.com/hc/articles/123" },
       { text := "d", href := "https://www.example.com/hc/en-us/page" }] =
      ["https://help.etsy.com/hc/en-us/articles/123", "/hc/fr-fr/articles/456"] := by
  rfl

/-- The degraded analysis result expected for the response of end-to-end
scenario 3, written out field by field. -/
def c9Expected : AnalysisResult :=
  { overall_score := .int 0, audience_detected := .str "Unknown",
    audience_mismatch := .bool false,
    issues := [{ category := .str "technical", severity := .str "critical",
                 description := .str "Failed to parse analysis response",
                 location := .null, recommendation := .str "Please try again" }],
    has_web_instructions := .bool false, has_app_instructions := .bool false,
    hardcoded_links := [], member_services_flag := .bool false,
    flag_reason := .null, raw_analysis := .str "I cannot process this." }

/-- C9: on the plain response "I cannot process this." the interpreter
returns the degraded result — score 0, audience "Unknown", no mismatch,
exactly one critical parse-failure issue with a retry recommendation, the
raw text preserved verbatim — and the report generated from it has overall
score 0, quality rating "Critical Issues" and that issue as its single
critical issue. -/
theorem claim_C9_degraded_pipeline :
    interpret_response [] "I cannot process this." = .ok c9Expected ∧
    (generate_report sampleArticle c9Expected none "2026-10-12T00:00:00").map
        (fun r => (r.overall_score, r.quality_rating, r.critical_issues)) =
      .ok (.int 0, "Critical Issues",
        [{ category := .str "technical", severity := .str "critical",
           description := .str "Failed to parse analysis response",
           location := .null, recommendation := .str "Please try again" }]) := by
  exact ⟨rfl, rfl⟩

/-- C10: a verification report needs manual review exactly when its
manual-review list is non-empty, which happens exactly when some result's
status is "unverified" or "potentially_outdated", and each such result
contributes exactly one manual-review line. -/
theorem claim_C10_manual_review_iff (html : String) :
    ((verify_article html).needs_manual_review = true ↔
      (verify_article html).manual_review_items ≠ []) ∧
    ((verify_article html).needs_manual_review = true ↔
      ∃ r ∈ (verify_article html).results,
        r.status = "unverified" ∨ r.status = "potentially_outdated") ∧
    (verify_article html).manual_review_items.length =
      ((verify_article html).results.filter needsReview).length := by
  have hitems := filterMap_guard_eq_map_filter needsReview manualItem
      ((extract_ui_elements html).map classify_element)
  refine ⟨?_, ?_, ?_⟩ <;>
    simp only [verify_article, hitems] <;>
    simp [List.length_pos_iff_ne_nil, List.filter_eq_nil_iff, needsReview,
      List.length_map, not_forall, or_iff_not_imp_left]

theorem claim_C10_witness :
    (verify_article "Go to Mysterious Widget Panel now or later.").needs_manual_review = true :=
  (claim_C10_manual_review_iff "Go to Mysterious Widget Panel now or later.").1.mpr
    (by decide)

end EtsyAuditor
